import Mathlib

/-!
Shallow embedding of the municipal complaint-tracking application
(`src/models.py`, `src/app.py`).

The relational store is modelled as lists of records; `datetime.utcnow()`
is an explicit `now : Nat` parameter threaded into each handler; password
hashing (`werkzeug.security`) is an opaque function parameter; Flask
`flash` calls become a list of `FlashMsg` values and the final
redirect/render becomes an explicit result constructor.  Each route
handler of `app.py` is one Lean function with the same branch structure
as the Python source.
-/

namespace LocalGov

/-- `models.UserRole` (models.py lines 10-13). -/
inductive UserRole where
  | citizen
  | admin
  | staff
deriving DecidableEq, Repr

/-- `models.ComplaintStatus` (models.py lines 15-21). -/
inductive ComplaintStatus where
  | pending
  | acknowledged
  | in_progress
  | escalated
  | resolved
  | closed
deriving DecidableEq, Repr

/-- `models.ComplaintPriority` (models.py lines 23-27). -/
inductive ComplaintPriority where
  | low
  | medium
  | high
  | critical
deriving DecidableEq, Repr

/-- `models.User` (models.py lines 29-51).  `is_active` is an SQL Integer
column with default 1 (Python truthiness: nonzero is truthy). -/
structure User where
  id : Nat
  email : String
  username : String
  password_hash : String
  full_name : String
  phone : String
  address : Option String
  role : UserRole
  created_at : Nat
  is_active : Nat
deriving DecidableEq, Repr

/-- `models.Complaint` (models.py lines 53-73). -/
structure Complaint where
  id : Nat
  ticket_number : String
  user_id : Nat
  title : String
  description : String
  category : String
  location : String
  status : ComplaintStatus
  priority : ComplaintPriority
  assigned_to : Option Nat
  created_at : Nat
  updated_at : Nat
  resolved_at : Option Nat
  escalation_count : Nat
deriving DecidableEq, Repr

/-- `models.Response` (models.py lines 75-86).  `is_internal` is an SQL
Integer column (the handlers write 0 or 1). -/
structure Response where
  id : Nat
  complaint_id : Nat
  responder_id : Nat
  message : String
  is_internal : Nat
  created_at : Nat
deriving DecidableEq, Repr

/-- The SQLite store backing the app: the three tables. -/
structure DB where
  users : List User
  complaints : List Complaint
  responses : List Response
deriving DecidableEq, Repr

/-- `db_session.query(User).get(uid)`: primary-key lookup. -/
def DB.getUser (db : DB) (uid : Nat) : Option User :=
  db.users.find? (fun u => u.id == uid)

/-- `db_session.query(Complaint).get(cid)`: primary-key lookup. -/
def DB.getComplaint (db : DB) (cid : Nat) : Option Complaint :=
  db.complaints.find? (fun c => c.id == cid)

/-- Committing a mutation of a complaint record: the row with the same
primary key is replaced. -/
def DB.setComplaint (db : DB) (c : Complaint) : DB :=
  { db with complaints := db.complaints.map (fun x => if x.id == c.id then c else x) }

/-- One value per `flash(...)` call site in `app.py`; dynamic f-string
parts are carried as fields. -/
inductive FlashMsg where
  | pleaseLogIn
  | accessDeniedAdmin
  | duplicateUser
  | registrationSuccess
  | registrationFailed (e : String)
  | welcomeBack (name : String)
  | invalidCredentials
  | loggedOut
  | complaintSubmitted (ticket : String)
  | complaintSubmitFailed (e : String)
  | complaintNotFound
  | accessDenied
  | updateSuccess
  | updateFailed (e : String)
  | responseAdded
  | responseFailed (e : String)
  | complaintEscalated
deriving DecidableEq, Repr

/-- Where a handler sends the browser next (redirect targets and the
one JSON error response in `app.py`). -/
inductive RouteTarget where
  | login
  | index
  | registerPage
  | userDashboard
  | adminDashboard
  | viewComplaint (cid : Nat)
  | notFoundJson
deriving DecidableEq, Repr

/-- Outcome of a mutating route: the committed store, the flashes
emitted, and where the handler redirects (or responds). -/
structure RouteOut where
  db : DB
  flashes : List FlashMsg
  target : RouteTarget
deriving DecidableEq, Repr

/-- `escalate_complaint` (app.py lines 276-290), including the
`admin_required` decorator (lines 26-36).  `sessUid` is
`session['user_id']` when present. -/
def escalate_complaint (db : DB) (sessUid : Option Nat) (cid : Nat) (now : Nat) : RouteOut :=
  match sessUid with
  | none => ⟨db, [], .login⟩
  | some uid =>
    match db.getUser uid with
    | none => ⟨db, [.accessDeniedAdmin], .index⟩
    | some user =>
      if user.role == .admin || user.role == .staff then
        match db.getComplaint cid with
        | some c =>
          let c' : Complaint :=
            { c with status := .escalated,
                     escalation_count := c.escalation_count + 1,
                     priority := .high,
                     updated_at := now }
          ⟨db.setComplaint c', [.complaintEscalated], .viewComplaint cid⟩
        | none => ⟨db, [], .viewComplaint cid⟩
      else ⟨db, [.accessDeniedAdmin], .index⟩

theorem find?_map_update (cs : List Complaint) (cid : Nat) (c c' : Complaint)
    (h : cs.find? (fun x => x.id == cid) = some c) (hid : c'.id = c.id) :
    (cs.map (fun x => if x.id == c'.id then c' else x)).find? (fun x => x.id == cid)
      = some c' := by
  induction cs with
  | nil => simp at h
  | cons x xs ih =>
    by_cases hx : x.id = cid
    · rw [List.find?_cons_of_pos _ (by simp [hx])] at h
      injection h with h
      subst h
      rw [List.map_cons, List.find?_cons_of_pos]
      · simp [hid]
      · simp [hid, hx]
    · rw [List.find?_cons_of_neg _ (by simp [hx])] at h
      have hcid : c.id = cid := by simpa using List.find?_some h
      have hx' : x.id ≠ c'.id := fun hc => hx (by rw [← hcid, ← hid]; exact hc)
      rw [List.map_cons, List.find?_cons_of_neg _ (by simp [hx', hx])]
      exact ih h

theorem getComplaint_setComplaint (db : DB) (cid : Nat) (c c' : Complaint)
    (h : db.getComplaint cid = some c) (hid : c'.id = c.id) :
    (db.setComplaint c').getComplaint cid = some c' := by
  unfold DB.getComplaint DB.setComplaint at *
  exact find?_map_update db.complaints cid c c' h hid

/-- The POST body of `/register`.  The handler reads email, username,
full_name, password (required keys), phone and address (optional with
default `''`); any other submitted field — in particular a `role` field —
is never read, which the model records by carrying it and ignoring it. -/
structure RegForm where
  email : String
  username : String
  full_name : String
  password : String
  phone : Option String
  address : Option String
  role : Option String
deriving DecidableEq, Repr

/-- `register` (app.py lines 43-79), POST branch.  `hash` stands for
`werkzeug.security.generate_password_hash`; `newId` is the primary key
the store assigns to the inserted row. -/
def register (db : DB) (form : RegForm) (now newId : Nat)
    (hash : String → String) : RouteOut :=
  match db.users.find? (fun u => u.email == form.email || u.username == form.username) with
  | some _ => ⟨db, [.duplicateUser], .registerPage⟩
  | none =>
    let user : User :=
      { id := newId
        email := form.email
        username := form.username
        password_hash := hash form.password
        full_name := form.full_name
        phone := form.phone.getD ""
        address := some (form.address.getD "")
        role := .citizen
        created_at := now
        is_active := 1 }
    ⟨{ db with users := db.users ++ [user] }, [.registrationSuccess], .login⟩

/-- `create_admin_user` (models.py lines 95-110): bootstrap run at
process start; inserts a default admin only when no user named `admin`
exists. -/
def create_admin_user (db : DB) (now newId : Nat) (hash : String → String) : DB :=
  match db.users.find? (fun u => u.username == "admin") with
  | some _ => db
  | none =>
    let admin : User :=
      { id := newId
        email := "admin@localgov.com"
        username := "admin"
        password_hash := hash "admin123"
        full_name := "System Administrator"
        phone := "0000000000"
        address := none
        role := .admin
        created_at := now
        is_active := 1 }
    { db with users := db.users ++ [admin] }

/-- The session identity `login` establishes on success:
`user_id`, `username`, `role.value`. -/
def roleValue : UserRole → String
  | .citizen => "citizen"
  | .admin => "admin"
  | .staff => "staff"

/-- Outcome of the `/login` POST: the session identity established
(none on failure), the flash, and the redirect (`none` = the login page
is re-rendered). -/
structure LoginOut where
  sessionIdentity : Option (Nat × String × String)
  flashes : List FlashMsg
  target : Option RouteTarget
deriving DecidableEq, Repr

/-- `login` (app.py lines 81-103), POST branch.  `verify hash pw` stands
for `check_password_hash(hash, pw)`.  The guard is
`user and user.check_password(password) and user.is_active` — the
Integer column `is_active` is truthy iff nonzero. -/
def login (db : DB) (username password : String)
    (verify : String → String → Bool) : LoginOut :=
  match db.users.find? (fun u => u.username == username) with
  | some user =>
    if verify user.password_hash password && user.is_active != 0 then
      ⟨some (user.id, user.username, roleValue user.role),
       [.welcomeBack user.full_name],
       some (if user.role == .admin || user.role == .staff then .adminDashboard
             else .userDashboard)⟩
    else ⟨none, [.invalidCredentials], none⟩
  | none => ⟨none, [.invalidCredentials], none⟩

/-- A decimal digit character, as used by `strftime` zero padding. -/
def digitChar (n : Nat) : Char := Char.ofNat (48 + n)

/-- `datetime.utcnow().strftime('%Y%m%d')`: the UTC date as 8 zero-padded
decimal digits (exact for the `datetime` year range up to 9999). -/
def strftimeYmd (y m d : Nat) : String :=
  ⟨[digitChar (y / 1000 % 10), digitChar (y / 100 % 10),
    digitChar (y / 10 % 10), digitChar (y % 10),
    digitChar (m / 10 % 10), digitChar (m % 10),
    digitChar (d / 10 % 10), digitChar (d % 10)]⟩

/-- A lowercase hexadecimal digit character (`secrets.token_hex` output
alphabet), for `n < 16`. -/
def hexDigitLower (n : Nat) : Char :=
  if n < 10 then Char.ofNat (48 + n) else Char.ofNat (97 + (n - 10))

/-- `secrets.token_hex(len(bs))` on the random bytes `bs`: two lowercase
hex digits per byte (high nibble then low nibble; exact for bytes
below 256). -/
def token_hex (bs : List Nat) : String :=
  ⟨(bs.map (fun b => [hexDigitLower (b / 16), hexDigitLower (b % 16)])).flatten⟩

/-- `str.upper()`: character-wise uppercasing (exact on the ASCII
output of `token_hex`). -/
def pyUpper (s : String) : String := ⟨s.data.map Char.toUpper⟩

/-- The ticket-number f-string of app.py line 160:
`COMP-{utcnow %Y%m%d}-{token_hex(3).upper()}`. -/
def mkTicketNumber (y m d : Nat) (bs : List Nat) : String :=
  "COMP-" ++ strftimeYmd y m d ++ "-" ++ pyUpper (token_hex bs)

/-- `ComplaintPriority[name]`: Python `Enum.__getitem__` by member name;
an unknown name raises `KeyError`. -/
def priorityOfName : String → Option ComplaintPriority
  | "LOW" => some .low
  | "MEDIUM" => some .medium
  | "HIGH" => some .high
  | "CRITICAL" => some .critical
  | _ => none

/-- `ComplaintStatus[name]`: Python `Enum.__getitem__` by member name. -/
def statusOfName : String → Option ComplaintStatus
  | "PENDING" => some .pending
  | "ACKNOWLEDGED" => some .acknowledged
  | "IN_PROGRESS" => some .in_progress
  | "ESCALATED" => some .escalated
  | "RESOLVED" => some .resolved
  | "CLOSED" => some .closed
  | _ => none

/-- The POST body of `/complaint/new`: required keys title, description,
category; optional location (default `''`) and priority (default
`'MEDIUM'`). -/
structure NewComplaintForm where
  title : String
  description : String
  category : String
  location : Option String
  priority : Option String
deriving DecidableEq, Repr

/-- `new_complaint` (app.py lines 154-185), POST branch, for a logged-in
user `uid`.  `(y, m, d)` is the UTC date and `bs` the three random bytes
behind the ticket number.  An unknown priority name raises `KeyError`,
caught by the handler: rollback, failure flash, form re-rendered
(`target = none`). -/
def new_complaint (db : DB) (uid : Nat) (form : NewComplaintForm)
    (y m d : Nat) (bs : List Nat) (now newId : Nat) :
    DB × List FlashMsg × Option RouteTarget :=
  let ticket := mkTicketNumber y m d bs
  match priorityOfName (form.priority.getD "MEDIUM") with
  | none => (db, [.complaintSubmitFailed "KeyError"], none)
  | some pr =>
    let c : Complaint :=
      { id := newId
        ticket_number := ticket
        user_id := uid
        title := form.title
        description := form.description
        category := form.category
        location := form.location.getD ""
        status := .pending
        priority := pr
        assigned_to := none
        created_at := now
        updated_at := now
        resolved_at := none
        escalation_count := 0 }
    ({ db with complaints := db.complaints ++ [c] },
     [.complaintSubmitted ticket], some .userDashboard)

/-- The POST body of `/complaint/<id>/update`: all three fields
optional (`'status' in request.form` etc.). -/
structure UpdateForm where
  status : Option String
  priority : Option String
  assigned_to : Option String
deriving DecidableEq, Repr

/-- Lines 219-224: `if 'status' in request.form`, `ComplaintStatus[...]`
(KeyError on an unknown name, modelled as `none`), stamping
`resolved_at` when the new status is Resolved. -/
def update_status_field (c : Complaint) (now : Nat) : Option String → Option Complaint
  | none => some c
  | some s =>
    match statusOfName s with
    | none => none
    | some st =>
      some { c with status := st,
                    resolved_at := if st == .resolved then some now else c.resolved_at }

/-- Lines 226-227: `if 'priority' in request.form`,
`ComplaintPriority[...]`. -/
def update_priority_field (c : Complaint) : Option String → Option Complaint
  | none => some c
  | some p =>
    match priorityOfName p with
    | none => none
    | some pr => some { c with priority := pr }

/-- Lines 229-230: `if 'assigned_to' in request.form and
request.form['assigned_to']` (empty string skipped), `int(...)`
(ValueError modelled as `none`). -/
def update_assigned_field (c : Complaint) : Option String → Option Complaint
  | none => some c
  | some a =>
    if a == "" then some c
    else
      match a.toNat? with
      | none => none
      | some n => some { c with assigned_to := some n }

/-- The try-block of `update_complaint` (app.py lines 218-232) applied to
one complaint row: status, then priority, then `assigned_to`, then
`updated_at`.  `none` models an exception anywhere in the block, which
rolls the whole transaction back (no partial commit). -/
def apply_update_form (c : Complaint) (form : UpdateForm) (now : Nat) :
    Option Complaint :=
  match update_status_field c now form.status with
  | none => none
  | some c1 =>
    match update_priority_field c1 form.priority with
    | none => none
    | some c2 =>
      match update_assigned_field c2 form.assigned_to with
      | none => none
      | some c3 => some { c3 with updated_at := now }

/-- `update_complaint` (app.py lines 210-241), including `admin_required`.
A missing complaint returns the 404 JSON error; an exception inside the
try block rolls back and flashes a failure; otherwise the mutated row is
committed. -/
def update_complaint (db : DB) (sessUid : Option Nat) (cid : Nat)
    (form : UpdateForm) (now : Nat) : RouteOut :=
  match sessUid with
  | none => ⟨db, [], .login⟩
  | some uid =>
    match db.getUser uid with
    | none => ⟨db, [.accessDeniedAdmin], .index⟩
    | some user =>
      if user.role == .admin || user.role == .staff then
        match db.getComplaint cid with
        | none => ⟨db, [], .notFoundJson⟩
        | some c =>
          match apply_update_form c form now with
          | some c' => ⟨db.setComplaint c', [.updateSuccess], .viewComplaint cid⟩
          | none => ⟨db, [.updateFailed "exception"], .viewComplaint cid⟩
      else ⟨db, [.accessDeniedAdmin], .index⟩

/-- The POST body of `/complaint/<id>/respond`: required key `message`,
optional checkbox `internal` (`request.form.get('internal')`, `'on'` when
checked). -/
structure RespondForm where
  message : String
  internal : Option String
deriving DecidableEq, Repr

/-- `respond_to_complaint` (app.py lines 243-274), including
`login_required`.  The handler checks only that the complaint exists —
it performs no view/ownership check.  `is_internal` is forced to 0
unless the author's role is admin or staff and the checkbox was `'on'`.
A deleted session user makes `user.role` raise inside the try block
(rollback + failure flash). -/
def respond_to_complaint (db : DB) (sessUid : Option Nat) (cid : Nat)
    (form : RespondForm) (now newId : Nat) : RouteOut :=
  match sessUid with
  | none => ⟨db, [.pleaseLogIn], .login⟩
  | some uid =>
    match db.getComplaint cid with
    | none => ⟨db, [.complaintNotFound], .userDashboard⟩
    | some _ =>
      match db.getUser uid with
      | none => ⟨db, [.responseFailed "AttributeError"], .viewComplaint cid⟩
      | some user =>
        let is_internal : Nat :=
          if user.role == .admin || user.role == .staff then
            if form.internal == some "on" then 1 else 0
          else 0
        let r : Response :=
          { id := newId
            complaint_id := cid
            responder_id := uid
            message := form.message
            is_internal := is_internal
            created_at := now }
        ⟨{ db with responses := db.responses ++ [r] },
         [.responseAdded], .viewComplaint cid⟩

/-- `SELECT complaints.category ... GROUP BY complaints.category`
(app.py lines 309-311): one row per distinct category value, each row
holding only the category string — the query has no count aggregate. -/
def group_by_category (cs : List Complaint) : List String :=
  (cs.map (fun c => c.category)).foldl
    (fun acc cat => if cat ∈ acc then acc else acc ++ [cat]) []

/-- The `category_counts` value computed by `reports`
(app.py lines 298-316). -/
def reports_category_rows (db : DB) : List String :=
  group_by_category db.complaints

/-! Concrete sample store used to instantiate the theorems. -/

/-- The bootstrap admin, as a concrete record. -/
def adminUserEx : User :=
  ⟨1, "admin@localgov.com", "admin", "H-admin123", "System Administrator",
   "0000000000", none, .admin, 0, 1⟩

/-- A citizen who owns a complaint. -/
def citizenAEx : User :=
  ⟨2, "alice@example.com", "alice", "H-pwA", "Alice A", "", some "", .citizen, 0, 1⟩

/-- A second citizen, owning nothing. -/
def citizenBEx : User :=
  ⟨3, "bob@example.com", "bob", "H-pwB", "Bob B", "", some "", .citizen, 0, 1⟩

/-- A complaint owned by `citizenAEx`, already resolved at critical
priority (the extreme prior state named by the escalation claim). -/
def complaintEx : Complaint :=
  ⟨10, "COMP-20260101-0A1B2C", 2, "Pothole", "Deep pothole", "Roads & Infrastructure",
   "Main St", .resolved, .critical, none, 0, 0, some 0, 2⟩

/-- The sample store. -/
def dbEx : DB := ⟨[adminUserEx, citizenAEx, citizenBEx], [complaintEx], []⟩

/-- C1: a successful escalate by a staff/admin actor, on any existing
complaint in any prior state (including Resolved/Closed and priority
Critical), leaves the complaint with status Escalated, priority High,
escalation_count incremented by one, and updated_at stamped with the
current time. -/
theorem escalate_sets_escalated_high_increment (db : DB) (uid : Nat) (user : User)
    (cid : Nat) (c : Complaint) (now : Nat)
    (hu : db.getUser uid = some user)
    (hrole : user.role = .admin ∨ user.role = .staff)
    (hc : db.getComplaint cid = some c) :
    (escalate_complaint db (some uid) cid now).db.getComplaint cid
      = some { c with status := .escalated,
                      priority := .high,
                      escalation_count := c.escalation_count + 1,
                      updated_at := now }
    ∧ (escalate_complaint db (some uid) cid now).flashes = [.complaintEscalated] := by
  have hrole' : (user.role == UserRole.admin || user.role == UserRole.staff) = true := by
    rcases hrole with h | h <;> simp [h]
  simp only [escalate_complaint, hu, hc, hrole', if_true]
  exact ⟨getComplaint_setComplaint db cid c _ hc rfl, trivial⟩

/-- Witness for C1: the admin escalates the resolved, critical-priority
sample complaint. -/
theorem escalate_sets_escalated_high_increment_inst :
    (escalate_complaint dbEx (some 1) 10 99).db.getComplaint 10
      = some { complaintEx with status := .escalated,
                                priority := .high,
                                escalation_count := complaintEx.escalation_count + 1,
                                updated_at := 99 }
    ∧ (escalate_complaint dbEx (some 1) 10 99).flashes = [.complaintEscalated] :=
  escalate_sets_escalated_high_increment dbEx 1 adminUserEx 10 complaintEx 99
    (by decide) (Or.inl rfl) (by decide)

/-- C10: escalating a complaint id that does not exist leaves the store
unchanged, emits no flash at all (neither a not-found error nor a
success message), and silently redirects to the complaint view URL. -/
theorem escalate_missing_id_silent_noop (db : DB) (uid : Nat) (user : User)
    (cid : Nat) (now : Nat)
    (hu : db.getUser uid = some user)
    (hrole : user.role = .admin ∨ user.role = .staff)
    (hc : db.getComplaint cid = none) :
    escalate_complaint db (some uid) cid now = ⟨db, [], .viewComplaint cid⟩ := by
  have hrole' : (user.role == UserRole.admin || user.role == UserRole.staff) = true := by
    rcases hrole with h | h <;> simp [h]
  simp only [escalate_complaint, hu, hc, hrole', if_true]

/-- Witness for C10: the admin escalates the unknown id 999. -/
theorem escalate_missing_id_silent_noop_inst :
    escalate_complaint dbEx (some 1) 999 99 = ⟨dbEx, [], .viewComplaint 999⟩ :=
  escalate_missing_id_silent_noop dbEx 1 adminUserEx 999 99
    (by decide) (Or.inl rfl) (by decide)

/-- Counterexample to C2: citizen Bob (id 3) responds to the complaint
owned by Alice (id 2).  No access-denied error is raised; the Response
row is created and the success flash is emitted. -/
theorem respond_to_foreign_complaint_succeeds :
    (respond_to_complaint dbEx (some 3) 10 ⟨"I saw this too", none⟩ 5 100).db.responses
      = [⟨100, 10, 3, "I saw this too", 0, 5⟩]
    ∧ (respond_to_complaint dbEx (some 3) 10 ⟨"I saw this too", none⟩ 5 100).flashes
      = [.responseAdded] := by
  constructor <;> rfl

/-- C2 (amended): `respond_to_complaint` performs no view/ownership
check — for every citizen author and every existing complaint the
citizen does not own, the response is still created (with
`is_internal = 0`) and the success flash is emitted. -/
theorem respond_creates_without_view_check (db : DB) (uid : Nat) (user : User)
    (cid : Nat) (c : Complaint) (form : RespondForm) (now newId : Nat)
    (hu : db.getUser uid = some user)
    (hrole : user.role = .citizen)
    (hc : db.getComplaint cid = some c)
    (_hnotOwner : c.user_id ≠ uid) :
    (respond_to_complaint db (some uid) cid form now newId).db.responses
      = db.responses ++ [⟨newId, cid, uid, form.message, 0, now⟩]
    ∧ (respond_to_complaint db (some uid) cid form now newId).flashes
      = [.responseAdded] := by
  simp [respond_to_complaint, hu, hc, hrole]

/-- Witness for the amended C2: Bob responds to Alice's complaint. -/
theorem respond_creates_without_view_check_inst :
    (respond_to_complaint dbEx (some 3) 10 ⟨"Me as well", none⟩ 6 101).db.responses
      = dbEx.responses ++ [⟨101, 10, 3, "Me as well", 0, 6⟩]
    ∧ (respond_to_complaint dbEx (some 3) 10 ⟨"Me as well", none⟩ 6 101).flashes
      = [.responseAdded] :=
  respond_creates_without_view_check dbEx 3 citizenBEx 10 complaintEx
    ⟨"Me as well", none⟩ 6 101 (by decide) rfl (by decide) (by decide)

/-- C4: the `is_internal` flag of a created response is 1 exactly when
the author's role is admin or staff and the checkbox was `'on'`; in
particular a citizen author always gets `is_internal = 0`, whatever the
requested flag. -/
theorem respond_internal_flag_forced (db : DB) (uid : Nat) (user : User)
    (cid : Nat) (c : Complaint) (form : RespondForm) (now newId : Nat)
    (hu : db.getUser uid = some user)
    (hc : db.getComplaint cid = some c) :
    (respond_to_complaint db (some uid) cid form now newId).db.responses
      = db.responses ++
        [⟨newId, cid, uid, form.message,
          if (user.role = .admin ∨ user.role = .staff) ∧ form.internal = some "on"
          then 1 else 0, now⟩] := by
  have hflag : (if user.role == UserRole.admin || user.role == UserRole.staff then
                  (if form.internal == some "on" then (1 : Nat) else 0) else 0)
      = if (user.role = .admin ∨ user.role = .staff) ∧ form.internal = some "on"
        then 1 else 0 := by
    rcases hr : user.role with _ | _ | _ <;>
      by_cases hi : form.internal = some "on" <;>
        simp [hr, hi]
  simp only [respond_to_complaint, hu, hc, hflag]

/-- Witness for C4: citizen Alice requests `internal='on'` on her own
complaint; the stored response still has `is_internal = 0`. -/
theorem respond_internal_flag_forced_inst :
    (respond_to_complaint dbEx (some 2) 10 ⟨"please expedite", some "on"⟩ 7 102).db.responses
      = dbEx.responses ++
        [⟨102, 10, 2, "please expedite",
          if (citizenAEx.role = .admin ∨ citizenAEx.role = .staff)
              ∧ (some "on" : Option String) = some "on"
          then 1 else 0, 7⟩] :=
  respond_internal_flag_forced dbEx 2 citizenAEx 10 complaintEx
    ⟨"please expedite", some "on"⟩ 7 102 (by decide) (by decide)

theorem update_status_field_eq (c : Complaint) (now : Nat) (s : String)
    (st : ComplaintStatus) (c' : Complaint)
    (hst : statusOfName s = some st)
    (h : update_status_field c now (some s) = some c') :
    c'.id = c.id ∧ c'.status = st ∧
    c'.resolved_at = (if st = .resolved then some now else c.resolved_at) := by
  unfold update_status_field at h
  dsimp only at h
  rw [hst] at h
  dsimp only at h
  simp only [Option.some.injEq] at h
  subst h
  simp

theorem update_priority_field_frame (c : Complaint) (p? : Option String)
    (c' : Complaint) (h : update_priority_field c p? = some c') :
    c'.id = c.id ∧ c'.status = c.status ∧ c'.resolved_at = c.resolved_at := by
  rcases p? with _ | p
  · simp only [update_priority_field, Option.some.injEq] at h
    subst h; exact ⟨rfl, rfl, rfl⟩
  · unfold update_priority_field at h
    dsimp only at h
    rcases hpr : priorityOfName p with _ | pr <;> rw [hpr] at h <;> dsimp only at h
    · simp at h
    · simp only [Option.some.injEq] at h
      subst h; exact ⟨rfl, rfl, rfl⟩

theorem update_assigned_field_frame (c : Complaint) (a? : Option String)
    (c' : Complaint) (h : update_assigned_field c a? = some c') :
    c'.id = c.id ∧ c'.status = c.status ∧ c'.resolved_at = c.resolved_at := by
  rcases a? with _ | a
  · simp only [update_assigned_field, Option.some.injEq] at h
    subst h; exact ⟨rfl, rfl, rfl⟩
  · unfold update_assigned_field at h
    dsimp only at h
    by_cases ha : a = ""
    · rw [if_pos (by simp [ha])] at h
      simp only [Option.some.injEq] at h
      subst h; exact ⟨rfl, rfl, rfl⟩
    · rw [if_neg (by simpa using ha)] at h
      rcases hn : a.toNat? with _ | n <;> rw [hn] at h <;> dsimp only at h
      · simp at h
      · simp only [Option.some.injEq] at h
        subst h; exact ⟨rfl, rfl, rfl⟩

theorem apply_update_form_status_fields (c : Complaint) (form : UpdateForm)
    (now : Nat) (c' : Complaint) (s : String) (st : ComplaintStatus)
    (hs : form.status = some s) (hst : statusOfName s = some st)
    (happ : apply_update_form c form now = some c') :
    c'.id = c.id ∧ c'.status = st ∧ c'.updated_at = now ∧
    c'.resolved_at = (if st = .resolved then some now else c.resolved_at) := by
  unfold apply_update_form at happ
  rcases h1 : update_status_field c now form.status with _ | c1 <;>
    rw [h1] at happ <;> dsimp only at happ
  · simp at happ
  rcases h2 : update_priority_field c1 form.priority with _ | c2 <;>
    rw [h2] at happ <;> dsimp only at happ
  · simp at happ
  rcases h3 : update_assigned_field c2 form.assigned_to with _ | c3 <;>
    rw [h3] at happ <;> dsimp only at happ
  · simp at happ
  simp only [Option.some.injEq] at happ
  subst happ
  rw [hs] at h1
  obtain ⟨e1, e2, e3⟩ := update_status_field_eq c now s st c1 hst h1
  obtain ⟨f1, f2, f3⟩ := update_priority_field_frame c1 form.priority c2 h2
  obtain ⟨g1, g2, g3⟩ := update_assigned_field_frame c2 form.assigned_to c3 h3
  refine ⟨?_, ?_, rfl, ?_⟩
  · show c3.id = c.id
    rw [g1, f1, e1]
  · show c3.status = st
    rw [g2, f2, e2]
  · show c3.resolved_at = _
    rw [g3, f3, e3]

/-- C5: a successful status update via `update_complaint` sets the
status to the parsed value, always stamps `updated_at` with the current
time, stamps `resolved_at` with the current time exactly when the new
status is Resolved, and otherwise (e.g. a later update to Closed) leaves
`resolved_at` unchanged. -/
theorem update_status_stamps_resolved_at (db : DB) (uid : Nat) (user : User)
    (cid : Nat) (c c' : Complaint) (form : UpdateForm) (now : Nat)
    (s : String) (st : ComplaintStatus)
    (hu : db.getUser uid = some user)
    (hrole : user.role = .admin ∨ user.role = .staff)
    (hc : db.getComplaint cid = some c)
    (hs : form.status = some s) (hst : statusOfName s = some st)
    (happ : apply_update_form c form now = some c') :
    (update_complaint db (some uid) cid form now).db.getComplaint cid = some c'
    ∧ (update_complaint db (some uid) cid form now).flashes = [.updateSuccess]
    ∧ c'.status = st
    ∧ c'.updated_at = now
    ∧ c'.resolved_at = (if st = .resolved then some now else c.resolved_at) := by
  have hfields := apply_update_form_status_fields c form now c' s st hs hst happ
  have hrole' : (user.role == UserRole.admin || user.role == UserRole.staff) = true := by
    rcases hrole with h | h <;> simp [h]
  simp only [update_complaint, hu, hc, happ, hrole', if_true]
  exact ⟨getComplaint_setComplaint db cid c c' hc hfields.1,
         trivial, hfields.2.1, hfields.2.2.1, hfields.2.2.2⟩

/-- Witness for C5: the admin resolves the sample pending complaint and
then closes it; the first update stamps `resolved_at := 50`, the second
leaves it at 50 while restamping `updated_at`. -/
theorem update_status_stamps_resolved_at_inst :
    (update_complaint dbEx (some 1) 10 ⟨some "RESOLVED", none, none⟩ 50).db.getComplaint 10
      = some { complaintEx with status := .resolved, resolved_at := some 50,
                                updated_at := 50 }
    ∧ (update_complaint dbEx (some 1) 10 ⟨some "RESOLVED", none, none⟩ 50).flashes
      = [.updateSuccess]
    ∧ ComplaintStatus.resolved = ComplaintStatus.resolved
    ∧ (50 : Nat) = 50
    ∧ (some 50 : Option Nat)
        = (if ComplaintStatus.resolved = .resolved then some 50
           else complaintEx.resolved_at) := by
  have h := update_status_stamps_resolved_at dbEx 1 adminUserEx 10 complaintEx
    { complaintEx with status := .resolved, resolved_at := some 50, updated_at := 50 }
    ⟨some "RESOLVED", none, none⟩ 50 "RESOLVED" .resolved
    (by decide) (Or.inl rfl) (by decide) rfl rfl (by decide)
  simpa using h

/-- The data-model invariant of the unique columns `users.email` and
`users.username` (models.py lines 33-34). -/
def uniqueUsers (us : List User) : Prop :=
  us.Pairwise (fun a b => a.email ≠ b.email ∧ a.username ≠ b.username)

instance (us : List User) : Decidable (uniqueUsers us) := by
  unfold uniqueUsers
  infer_instance

/-- C6: when some stored user already has the requested email or the
requested username (compared exactly as stored), `register` flashes the
duplicate error, redirects back to the registration page, and leaves the
store unchanged — so email and username stay unique across all users. -/
theorem register_rejects_duplicate (db : DB) (form : RegForm) (now newId : Nat)
    (hash : String → String)
    (huniq : uniqueUsers db.users)
    (hdup : ∃ u ∈ db.users, u.email = form.email ∨ u.username = form.username) :
    register db form now newId hash = ⟨db, [.duplicateUser], .registerPage⟩
    ∧ uniqueUsers (register db form now newId hash).db.users := by
  obtain ⟨u, hu, hcase⟩ := hdup
  have hp : (u.email == form.email || u.username == form.username) = true := by
    rcases hcase with h | h <;> simp [h]
  have hsome : (db.users.find?
      (fun v => v.email == form.email || v.username == form.username)).isSome := by
    rw [List.find?_isSome]
    exact ⟨u, hu, hp⟩
  obtain ⟨v, hv⟩ := Option.isSome_iff_exists.mp hsome
  constructor
  · simp [register, hv]
  · simp only [register, hv]
    exact huniq

/-- Witness for C6: a second registration reusing Alice's email is
rejected and the sample store is untouched. -/
theorem register_rejects_duplicate_inst :
    register dbEx ⟨"alice@example.com", "alice2", "Alice Clone", "pw", none, none, none⟩
        5 50 (fun p => p)
      = ⟨dbEx, [.duplicateUser], .registerPage⟩
    ∧ uniqueUsers (register dbEx
        ⟨"alice@example.com", "alice2", "Alice Clone", "pw", none, none, none⟩
        5 50 (fun p => p)).db.users :=
  register_rejects_duplicate dbEx
    ⟨"alice@example.com", "alice2", "Alice Clone", "pw", none, none, none⟩
    5 50 (fun p => p) (by decide) ⟨citizenAEx, by decide, Or.inl rfl⟩

/-- C9: every user the public `register` operation adds has role
Citizen, whatever `role` value the request carried; the only other
user-creating routine, the `create_admin_user` bootstrap, adds (at most)
the user named `admin` with role Admin. -/
theorem register_creates_only_citizens (db : DB) (form : RegForm)
    (now newId : Nat) (hash : String → String)
    (now2 newId2 : Nat) (hash2 : String → String) :
    (∀ u ∈ (register db form now newId hash).db.users,
        u ∈ db.users ∨ u.role = .citizen)
    ∧ (∀ u ∈ (create_admin_user db now2 newId2 hash2).users,
        u ∈ db.users ∨ (u.username = "admin" ∧ u.role = .admin)) := by
  constructor
  · intro u hu
    unfold register at hu
    rcases hf : db.users.find?
        (fun v => v.email == form.email || v.username == form.username) with _ | v <;>
      rw [hf] at hu <;> dsimp only at hu
    · rcases List.mem_append.mp hu with h | h
      · exact Or.inl h
      · simp only [List.mem_singleton] at h
        subst h
        exact Or.inr rfl
    · exact Or.inl hu
  · intro u hu
    unfold create_admin_user at hu
    rcases hf : db.users.find? (fun v => v.username == "admin") with _ | v <;>
      rw [hf] at hu <;> dsimp only at hu
    · rcases List.mem_append.mp hu with h | h
      · exact Or.inl h
      · simp only [List.mem_singleton] at h
        subst h
        exact Or.inr ⟨rfl, rfl⟩
    · exact Or.inl hu

/-- The username-uniqueness used by the login claim (the unique column
`users.username`). -/
def uniqueUsernames (us : List User) : Prop :=
  us.Pairwise (fun a b => a.username ≠ b.username)

instance (us : List User) : Decidable (uniqueUsernames us) := by
  unfold uniqueUsernames
  infer_instance

theorem uniqueUsernames_inj (us : List User) (h : uniqueUsernames us) :
    ∀ u v, u ∈ us → v ∈ us → u.username = v.username → u = v := by
  induction h with
  | nil => intro u v hu _ _; simp at hu
  | cons hhead _ ih =>
    intro u v hu hv huv
    rcases List.mem_cons.mp hu with rfl | hu'
    · rcases List.mem_cons.mp hv with rfl | hv'
      · rfl
      · exact absurd huv (hhead v hv')
    · rcases List.mem_cons.mp hv with rfl | hv'
      · exact absurd huv.symm (hhead u hu')
      · exact ih u v hu' hv' huv

/-- C7: assuming unique usernames, `login` establishes no session
identity (and flashes the generic invalid-credentials message) exactly
when the username is unknown, or the matching user's stored credential
does not verify the password, or the account's active flag is 0;
otherwise it succeeds and the session identity is that of the matching
user. -/
theorem login_failure_characterisation (db : DB) (username password : String)
    (verify : String → String → Bool)
    (huniq : uniqueUsernames db.users) :
    ((login db username password verify).sessionIdentity = none ↔
      (¬ ∃ u ∈ db.users, u.username = username)
      ∨ (∃ u ∈ db.users, u.username = username
          ∧ (verify u.password_hash password = false ∨ u.is_active = 0)))
    ∧ ((login db username password verify).sessionIdentity = none →
        (login db username password verify).flashes = [.invalidCredentials])
    ∧ ((login db username password verify).sessionIdentity ≠ none →
        ∃ u ∈ db.users, u.username = username
          ∧ verify u.password_hash password = true ∧ u.is_active ≠ 0
          ∧ (login db username password verify).sessionIdentity
              = some (u.id, u.username, roleValue u.role)) := by
  rcases hf : db.users.find? (fun u => u.username == username) with _ | u
  · have hnone : ¬ ∃ u ∈ db.users, u.username = username := by
      rintro ⟨u, hu, hu'⟩
      have := List.find?_eq_none.mp hf u hu
      simp [hu'] at this
    refine ⟨?_, ?_, ?_⟩
    · simp only [login, hf]
      exact ⟨fun _ => Or.inl hnone, fun _ => trivial⟩
    · intro _
      simp [login, hf]
    · intro hne
      exact absurd (by simp [login, hf]) hne
  · have humem : u ∈ db.users := List.mem_of_find?_eq_some hf
    have huname : u.username = username := by
      have := List.find?_some hf
      simpa using this
    by_cases hv : verify u.password_hash password = true
    · by_cases hz : u.is_active = 0
      · have hcond : (verify u.password_hash password && u.is_active != 0) = false := by
          simp [hz]
        refine ⟨?_, ?_, ?_⟩
        · simp only [login, hf, hcond, Bool.false_eq_true, if_false]
          exact ⟨fun _ => Or.inr ⟨u, humem, huname, Or.inr hz⟩, fun _ => trivial⟩
        · intro _
          simp [login, hf, hcond]
        · intro hne
          exact absurd (by simp [login, hf, hcond]) hne
      · have hcond : (verify u.password_hash password && u.is_active != 0) = true := by
          simp [hv, hz]
        refine ⟨?_, ?_, ?_⟩
        · simp only [login, hf, hcond, if_true]
          constructor
          · intro h
            simp at h
          · rintro (h | ⟨w, hw, hw', hbad⟩)
            · exact absurd ⟨u, humem, huname⟩ h
            · have hwu : w = u :=
                uniqueUsernames_inj db.users huniq w u hw humem (hw'.trans huname.symm)
              subst hwu
              rcases hbad with h | h
              · rw [hv] at h
                cases h
              · exact absurd h hz
        · intro h
          simp only [login, hf, hcond, if_true] at h
          cases h
        · intro _
          exact ⟨u, humem, huname, hv, hz, by simp [login, hf, hcond]⟩
    · have hvf : verify u.password_hash password = false := by
        cases hb : verify u.password_hash password
        · rfl
        · exact absurd hb hv
      have hcond : (verify u.password_hash password && u.is_active != 0) = false := by
        simp [hvf]
      refine ⟨?_, ?_, ?_⟩
      · simp only [login, hf, hcond, Bool.false_eq_true, if_false]
        exact ⟨fun _ => Or.inr ⟨u, humem, huname, Or.inl hvf⟩, fun _ => trivial⟩
      · intro _
        simp [login, hf, hcond]
      · intro hne
        exact absurd (by simp [login, hf, hcond]) hne

/-- Witness for C7: Alice logs in with the right password against a
verifier that compares the stored hash to `H-` plus the password. -/
theorem login_failure_characterisation_inst :
    (((login dbEx "alice" "pwA" (fun h p => h == "H-" ++ p)).sessionIdentity = none ↔
      (¬ ∃ u ∈ dbEx.users, u.username = "alice")
      ∨ (∃ u ∈ dbEx.users, u.username = "alice"
          ∧ ((fun h p => h == "H-" ++ p) u.password_hash "pwA" = false ∨ u.is_active = 0)))
    ∧ ((login dbEx "alice" "pwA" (fun h p => h == "H-" ++ p)).sessionIdentity = none →
        (login dbEx "alice" "pwA" (fun h p => h == "H-" ++ p)).flashes
          = [.invalidCredentials])
    ∧ ((login dbEx "alice" "pwA" (fun h p => h == "H-" ++ p)).sessionIdentity ≠ none →
        ∃ u ∈ dbEx.users, u.username = "alice"
          ∧ (fun h p => h == "H-" ++ p) u.password_hash "pwA" = true ∧ u.is_active ≠ 0
          ∧ (login dbEx "alice" "pwA" (fun h p => h == "H-" ++ p)).sessionIdentity
              = some (u.id, u.username, roleValue u.role))) :=
  login_failure_characterisation dbEx "alice" "pwA" (fun h p => h == "H-" ++ p)
    (by decide)

/-- A complaint whose category is the empty string (the form field
`category` submitted empty). -/
def emptyCategoryComplaintEx : Complaint :=
  ⟨11, "COMP-20260101-0D1E2F", 2, "Untitled", "No details", "", "",
   .pending, .medium, none, 0, 0, none, 0⟩

/-- A store holding one complaint with an empty category. -/
def dbEmptyCatEx : DB := ⟨[adminUserEx], [emptyCategoryComplaintEx], []⟩

/-- Counterexample to C3: with one stored complaint whose category is
the empty string, the category report contains the empty string — empty
categories are not excluded (and the query computes no counts at all:
each row is just the category value). -/
theorem reports_keeps_empty_category :
    "" ∈ reports_category_rows dbEmptyCatEx := by decide

theorem mem_foldl_dedup (l acc : List String) (x : String) :
    (x ∈ l.foldl (fun acc cat => if cat ∈ acc then acc else acc ++ [cat]) acc)
      ↔ x ∈ acc ∨ x ∈ l := by
  induction l generalizing acc with
  | nil => simp
  | cons c cs ih =>
    rw [List.foldl_cons]
    by_cases hc : c ∈ acc
    · rw [if_pos hc, ih]
      constructor
      · rintro (h | h)
        · exact Or.inl h
        · exact Or.inr (List.mem_cons_of_mem c h)
      · rintro (h | h)
        · exact Or.inl h
        · rcases List.mem_cons.mp h with rfl | h
          · exact Or.inl hc
          · exact Or.inr h
    · rw [if_neg hc, ih]
      constructor
      · rintro (h | h)
        · rcases List.mem_append.mp h with h | h
          · exact Or.inl h
          · simp only [List.mem_singleton] at h
            exact Or.inr (h ▸ List.mem_cons_self c cs)
        · exact Or.inr (List.mem_cons_of_mem c h)
      · rintro (h | h)
        · exact Or.inl (List.mem_append_left _ h)
        · rcases List.mem_cons.mp h with rfl | h
          · exact Or.inl (List.mem_append_right _ (List.mem_singleton_self x))
          · exact Or.inr h

theorem nodup_foldl_dedup (l acc : List String) (hacc : acc.Nodup) :
    (l.foldl (fun acc cat => if cat ∈ acc then acc else acc ++ [cat]) acc).Nodup := by
  induction l generalizing acc with
  | nil => exact hacc
  | cons c cs ih =>
    rw [List.foldl_cons]
    by_cases hc : c ∈ acc
    · rw [if_pos hc]
      exact ih acc hacc
    · rw [if_neg hc]
      refine ih _ ?_
      rw [List.nodup_append]
      refine ⟨hacc, List.nodup_singleton c, ?_⟩
      intro a ha hb
      rw [List.mem_singleton] at hb
      subst hb
      exact hc ha

/-- C3 (amended): the category report of `reports` returns one row per
distinct category value observed among the stored complaints — a
category string appears in the rows exactly when some stored complaint
has that category, with no duplicates; empty categories are included and
no counts are computed (each row carries only the category string). -/
theorem reports_category_rows_distinct (db : DB) :
    (∀ cat, cat ∈ reports_category_rows db
        ↔ ∃ c ∈ db.complaints, c.category = cat)
    ∧ (reports_category_rows db).Nodup := by
  constructor
  · intro cat
    unfold reports_category_rows group_by_category
    rw [mem_foldl_dedup]
    simp [List.mem_map]
  · exact nodup_foldl_dedup _ _ List.nodup_nil

/-- An uppercase hexadecimal digit character (`0-9`, `A-F`). -/
def isUpperHexDigit (ch : Char) : Bool :=
  ('0' ≤ ch && ch ≤ '9') || ('A' ≤ ch && ch ≤ 'F')

theorem digitChar_isDigit (n : Nat) (h : n < 10) : (digitChar n).isDigit = true := by
  interval_cases n <;> decide

theorem hexDigitLower_toUpper_hex (n : Nat) (h : n < 16) :
    isUpperHexDigit ((hexDigitLower n).toUpper) = true := by
  interval_cases n <;> decide

/-- C8: for any UTC date in `datetime`'s four-digit-year range and any
three random bytes, `new_complaint` with the priority field absent
(so the `'MEDIUM'` default applies) appends exactly one complaint whose
ticket number is `COMP-` followed by the 8 decimal digits of the date,
a dash, and 6 uppercase hexadecimal characters — and whose initial
status is Pending and initial priority Medium. -/
theorem new_complaint_ticket_format (db : DB) (uid : Nat) (form : NewComplaintForm)
    (y m d b0 b1 b2 now newId : Nat)
    (hpr : form.priority = none)
    (_hy : 1000 ≤ y ∧ y ≤ 9999) (_hm : 1 ≤ m ∧ m ≤ 12) (_hd : 1 ≤ d ∧ d ≤ 31)
    (hb0 : b0 < 256) (hb1 : b1 < 256) (hb2 : b2 < 256) :
    (new_complaint db uid form y m d [b0, b1, b2] now newId).1.complaints
      = db.complaints ++
        [⟨newId, mkTicketNumber y m d [b0, b1, b2], uid, form.title, form.description,
          form.category, form.location.getD "", .pending, .medium, none, now, now,
          none, 0⟩]
    ∧ (mkTicketNumber y m d [b0, b1, b2]).data
        = 'C' :: 'O' :: 'M' :: 'P' :: '-' ::
          ((strftimeYmd y m d).data ++ '-' :: (pyUpper (token_hex [b0, b1, b2])).data)
    ∧ (strftimeYmd y m d).data.length = 8
    ∧ (strftimeYmd y m d).data.all Char.isDigit = true
    ∧ (pyUpper (token_hex [b0, b1, b2])).data.length = 6
    ∧ (pyUpper (token_hex [b0, b1, b2])).data.all isUpperHexDigit = true := by
  refine ⟨?_, rfl, rfl, ?_, rfl, ?_⟩
  · simp [new_complaint, hpr, priorityOfName]
  · show ([digitChar (y / 1000 % 10), digitChar (y / 100 % 10),
           digitChar (y / 10 % 10), digitChar (y % 10),
           digitChar (m / 10 % 10), digitChar (m % 10),
           digitChar (d / 10 % 10), digitChar (d % 10)].all Char.isDigit) = true
    simp [digitChar_isDigit _ (Nat.mod_lt _ (by decide))]
  · show ([(hexDigitLower (b0 / 16)).toUpper, (hexDigitLower (b0 % 16)).toUpper,
           (hexDigitLower (b1 / 16)).toUpper, (hexDigitLower (b1 % 16)).toUpper,
           (hexDigitLower (b2 / 16)).toUpper,
           (hexDigitLower (b2 % 16)).toUpper].all isUpperHexDigit) = true
    simp [hexDigitLower_toUpper_hex _ (Nat.mod_lt _ (by decide)),
          hexDigitLower_toUpper_hex _ (show b0 / 16 < 16 by omega),
          hexDigitLower_toUpper_hex _ (show b1 / 16 < 16 by omega),
          hexDigitLower_toUpper_hex _ (show b2 / 16 < 16 by omega)]

/-- Witness for C8: a complaint created on 2026-10-12 with random bytes
`0x0f, 0xa5, 0xff` gets ticket `COMP-20261012-0FA5FF`, status Pending,
priority Medium. -/
theorem new_complaint_ticket_format_inst :
    (new_complaint dbEx 2 ⟨"Leak", "Burst pipe", "Water Supply", none, none⟩
        2026 10 12 [15, 165, 255] 40 30).1.complaints
      = dbEx.complaints ++
        [⟨30, mkTicketNumber 2026 10 12 [15, 165, 255], 2, "Leak", "Burst pipe",
          "Water Supply", "", .pending, .medium, none, 40, 40, none, 0⟩]
    ∧ (mkTicketNumber 2026 10 12 [15, 165, 255]).data
        = 'C' :: 'O' :: 'M' :: 'P' :: '-' ::
          ((strftimeYmd 2026 10 12).data ++ '-' ::
            (pyUpper (token_hex [15, 165, 255])).data)
    ∧ (strftimeYmd 2026 10 12).data.length = 8
    ∧ (strftimeYmd 2026 10 12).data.all Char.isDigit = true
    ∧ (pyUpper (token_hex [15, 165, 255])).data.length = 6
    ∧ (pyUpper (token_hex [15, 165, 255])).data.all isUpperHexDigit = true :=
  new_complaint_ticket_format dbEx 2 ⟨"Leak", "Burst pipe", "Water Supply", none, none⟩
    2026 10 12 15 165 255 40 30 rfl (by decide) (by decide) (by decide)
    (by decide) (by decide) (by decide)

end LocalGov
